import Mathlib

/-!
Shallow embedding of `src/backend/src/access/models.rs`: the request
classifiers (`AccessRequest::from_rouille`, `UserAccessRequest::from_rouille`),
the response encoders (`AccessResponse::to_rouille`,
`UserAccessResponse::to_rouille`), and the serde wire formats of the entity
types, together with theorems about the routing, query-predicate and
error-handling behaviour.
-/

set_option autoImplicit false

namespace Webdev

/-- Error kinds of `crate::errors::WebdevErrorKind`.
Modelled from the spec: the `errors` module is not under `src/`; §7 lists
the kinds `Format`, `NotFound` and `Internal` surfaced by this layer. -/
inductive WebdevErrorKind where
  | Format
  | NotFound
  | Internal
  deriving DecidableEq, Repr

/-- Embeds `crate::errors::WebdevError`.
Modelled from the spec: the `errors` module is not under `src/`; only the
error kind is observable at this layer (§7). -/
structure WebdevError where
  kind : WebdevErrorKind
  deriving DecidableEq, Repr

/-- Embeds `WebdevError::new(kind)` as called throughout `models.rs`. -/
def WebdevError.new (k : WebdevErrorKind) : WebdevError := ⟨k⟩

/-- JSON values as delivered by `serde_json`'s syntactic layer. Numbers are
modelled as integers: the payload structs in `models.rs` deserialize numbers
only into `i64`, and a non-integral JSON number fails that deserialization
just as any non-number value does. -/
inductive Json where
  | null
  | bool (b : Bool)
  | num (n : Int)
  | str (s : String)
  | arr (elems : List Json)
  | obj (fields : List (String × Json))

/-- The `i64` range bounds used by both the path-segment parser and the
serde `i64` deserializer. -/
def i64Min : Int := -(2 ^ 63)

/-- Upper bound of the `i64` range. -/
def i64Max : Int := 2 ^ 63 - 1

/-- Digit-run parsing as in Rust's integer `from_str`: one or more ASCII
digits, rejecting anything else. -/
def parseDigits : List Char → Option Nat
  | [] => none
  | cs =>
    if cs.all Char.isDigit
    then some (cs.foldl (fun a c => a * 10 + (c.toNat - 48)) 0)
    else none

/-- Embeds `i64::from_str` as the `rouille` `router!` macro applies it to an
`{id: i64}` path segment: optional sign, one or more digits, value within
the 64-bit signed range; any failure makes the route pattern a non-match. -/
def parseI64 (s : String) : Option Int :=
  let signDigits : Int × List Char :=
    match s.data with
    | '+' :: rest => (1, rest)
    | '-' :: rest => (-1, rest)
    | rest => (1, rest)
  match parseDigits signDigits.2 with
  | none => none
  | some n =>
    let v : Int := signDigits.1 * n
    if i64Min ≤ v ∧ v ≤ i64Max then some v else none

/-- Embeds `crate::search::Search<T>`.
Modelled from the spec: the `search` module is not under `src/`. §9 describes
the shape `NoFilter | Match(T)`; the no-filter variant is named `NoSearch` in
the source (`models.rs` line 143 uses `Search::NoSearch`). -/
inductive Search (T : Type) where
  | NoSearch
  | Exact (v : T)
  deriving DecidableEq, Repr

/-- Embeds `crate::search::NullableSearch<T>`.
Modelled from the spec: §9 adds a distinguished require-null variant to the
`Search` shape; `models.rs` line 145 uses `NullableSearch::NoSearch`. -/
inductive NullableSearch (T : Type) where
  | NoSearch
  | Exact (v : T)
  | Null
  deriving DecidableEq, Repr

/-- Modelled from the spec: `Search::<i64>::from_query` is not under `src/`.
§4.1: the parser turns one query value into a typed predicate, rejects
non-numeric text for `i64` deterministically with a `Format` error, and never
produces the no-filter state. -/
def Search.from_query (q : String) : Except WebdevError (Search Int) :=
  match parseI64 q with
  | some n => .ok (.Exact n)
  | none => .error (WebdevError.new .Format)

/-- Modelled from the spec: `NullableSearch::<String>::from_query` is not
under `src/`. §4.1: a sentinel token yields the require-null predicate and
any other text an exact string match; the no-filter state is never produced
by the parser. -/
def NullableSearch.from_query (q : String) : Except WebdevError (NullableSearch String) :=
  if q = "null" then .ok .Null else .ok (.Exact q)

/-- Embeds `Access` (`models.rs` lines 19–23). -/
structure Access where
  id : Int
  access_name : String
  deriving DecidableEq, Repr

/-- Embeds `NewAccess` (`models.rs` lines 25–29). -/
structure NewAccess where
  access_name : String
  deriving DecidableEq, Repr

/-- Embeds `PartialAccess` (`models.rs` lines 31–35). -/
structure PartialAccess where
  access_name : String
  deriving DecidableEq, Repr

/-- Embeds `UserAccess` (`models.rs` lines 96–102): note the identity field is
declared `permission_id`. -/
structure UserAccess where
  permission_id : Int
  access_id : Int
  user_id : Int
  permission_level : Option String
  deriving DecidableEq, Repr

/-- Embeds `NewUserAccess` (`models.rs` lines 104–110). -/
structure NewUserAccess where
  access_id : Int
  user_id : Int
  permission_level : Option String
  deriving DecidableEq, Repr

/-- Embeds `PartialUserAccess` (`models.rs` lines 112–118): `permission_level` is a
double option in the source (`Option<Option<String>>`). -/
structure PartialUserAccess where
  access_id : Int
  user_id : Int
  permission_level : Option (Option String)
  deriving DecidableEq, Repr

/-- Embeds `SearchUserAccess` (`models.rs` lines 120–124). -/
structure SearchUserAccess where
  access_id : Search Int
  user_id : Search Int
  permission_level : NullableSearch String
  deriving DecidableEq, Repr

/-- Embeds `AccessRequest` (`models.rs` lines 37–42). -/
inductive AccessRequest where
  | GetAccess (id : Int)
  | CreateAccess (new : NewAccess)
  | UpdateAccess (id : Int) (change : PartialAccess)
  | DeleteAccess (id : Int)
  deriving DecidableEq, Repr

/-- Embeds `UserAccessRequest` (`models.rs` lines 126–132). -/
inductive UserAccessRequest where
  | SearchAccess (s : SearchUserAccess)
  | CheckAccess (user_id access_id : Int)
  | CreateAccess (new : NewUserAccess)
  | UpdateAccess (id : Int) (change : PartialUserAccess)
  | DeleteAccess (id : Int)
  deriving DecidableEq, Repr

/-- What reading a request body and running `serde_json`'s syntactic layer
over it can yield: bytes that are not JSON at all, or bytes parsing to a
single JSON value. -/
inductive BodyData where
  | malformed
  | json (j : Json)

/-- The slice of a `rouille::Request` that `models.rs` consumes: the method
string, the URL path split into segments (the root path `/` is the empty
list), the raw query string already decoded by `url::form_urlencoded::parse`
into its ordered key/value pairs, and the optional body. -/
structure Request where
  method : String
  pathSegments : List String
  queryPairs : List (String × String)
  body : Option BodyData

/-- serde deserialization of a JSON value into `String`. -/
def getString : Json → Except String String
  | .str s => .ok s
  | _ => .error "invalid type: expected a string"

/-- serde deserialization of a JSON value into `i64`: an integral number in
the 64-bit signed range. -/
def getI64 : Json → Except String Int
  | .num n =>
    if i64Min ≤ n ∧ n ≤ i64Max then .ok n else .error "number out of i64 range"
  | _ => .error "invalid type: expected an integer"

/-- serde deserialization into `Option<String>`: `null` gives `none`. -/
def getOptString : Json → Except String (Option String)
  | .null => .ok none
  | .str s => .ok (some s)
  | _ => .error "invalid type: expected a string or null"

/-- serde deserialization into `Option<Option<String>>`: `serde_json`'s
`deserialize_option` sees `null` and calls `visit_none` on the OUTER option
before the inner one is ever consulted, so `null` yields `none` and the value
`some none` is unreachable from JSON input. -/
def getOptOptString : Json → Except String (Option (Option String))
  | .null => .ok none
  | .str s => .ok (some (some s))
  | _ => .error "invalid type: expected a string or null"

/-- Field loop of the derived `Deserialize` for `NewAccess`: object entries
are visited in order, a repeated field is an error, unknown fields are
ignored (serde's default), and `access_name` is required. -/
def fieldsToNewAccess : List (String × Json) → Option String → Except String NewAccess
  | [], some s => .ok ⟨s⟩
  | [], none => .error "missing field access_name"
  | (k, v) :: rest, acc =>
    if k = "access_name" then
      match acc with
      | some _ => .error "duplicate field access_name"
      | none => (getString v).bind fun s => fieldsToNewAccess rest (some s)
    else
      fieldsToNewAccess rest acc

/-- Embeds `serde_json` deserialization of `NewAccess` (`models.rs` lines 25–29). -/
def deserializeNewAccess : Json → Except String NewAccess
  | .obj fields => fieldsToNewAccess fields none
  | _ => .error "invalid type: expected an object"

/-- Field loop of the derived `Deserialize` for `PartialAccess`. -/
def fieldsToPartialAccess : List (String × Json) → Option String → Except String PartialAccess
  | [], some s => .ok ⟨s⟩
  | [], none => .error "missing field access_name"
  | (k, v) :: rest, acc =>
    if k = "access_name" then
      match acc with
      | some _ => .error "duplicate field access_name"
      | none => (getString v).bind fun s => fieldsToPartialAccess rest (some s)
    else
      fieldsToPartialAccess rest acc

/-- Embeds `serde_json` deserialization of `PartialAccess` (`models.rs` 31–35). -/
def deserializePartialAccess : Json → Except String PartialAccess
  | .obj fields => fieldsToPartialAccess fields none
  | _ => .error "invalid type: expected an object"

/-- Field loop of the derived `Deserialize` for `NewUserAccess`: `access_id`
and `user_id` are required; `permission_level`, being an `Option` field,
defaults to `none` when absent. -/
def fieldsToNewUserAccess : List (String × Json) → Option Int → Option Int →
    Option (Option String) → Except String NewUserAccess
  | [], some a, some u, p => .ok ⟨a, u, p.getD none⟩
  | [], none, _, _ => .error "missing field access_id"
  | [], some _, none, _ => .error "missing field user_id"
  | (k, v) :: rest, a, u, p =>
    if k = "access_id" then
      match a with
      | some _ => .error "duplicate field access_id"
      | none => (getI64 v).bind fun n => fieldsToNewUserAccess rest (some n) u p
    else if k = "user_id" then
      match u with
      | some _ => .error "duplicate field user_id"
      | none => (getI64 v).bind fun n => fieldsToNewUserAccess rest a (some n) p
    else if k = "permission_level" then
      match p with
      | some _ => .error "duplicate field permission_level"
      | none => (getOptString v).bind fun s => fieldsToNewUserAccess rest a u (some s)
    else
      fieldsToNewUserAccess rest a u p

/-- Embeds `serde_json` deserialization of `NewUserAccess` (`models.rs` 104–110). -/
def deserializeNewUserAccess : Json → Except String NewUserAccess
  | .obj fields => fieldsToNewUserAccess fields none none none
  | _ => .error "invalid type: expected an object"

/-- Field loop of the derived `Deserialize` for `PartialUserAccess`:
`access_id` and `user_id` are required; the double-option
`permission_level` defaults to the outer `none` when absent. -/
def fieldsToPartialUserAccess : List (String × Json) → Option Int → Option Int →
    Option (Option (Option String)) → Except String PartialUserAccess
  | [], some a, some u, p => .ok ⟨a, u, p.getD none⟩
  | [], none, _, _ => .error "missing field access_id"
  | [], some _, none, _ => .error "missing field user_id"
  | (k, v) :: rest, a, u, p =>
    if k = "access_id" then
      match a with
      | some _ => .error "duplicate field access_id"
      | none => (getI64 v).bind fun n => fieldsToPartialUserAccess rest (some n) u p
    else if k = "user_id" then
      match u with
      | some _ => .error "duplicate field user_id"
      | none => (getI64 v).bind fun n => fieldsToPartialUserAccess rest a (some n) p
    else if k = "permission_level" then
      match p with
      | some _ => .error "duplicate field permission_level"
      | none => (getOptOptString v).bind fun s => fieldsToPartialUserAccess rest a u (some s)
    else
      fieldsToPartialUserAccess rest a u p

/-- Embeds `serde_json` deserialization of `PartialUserAccess` (`models.rs`
112–118). -/
def deserializePartialUserAccess : Json → Except String PartialUserAccess
  | .obj fields => fieldsToPartialUserAccess fields none none none
  | _ => .error "invalid type: expected an object"

/-- Embeds `serde_json` serialization of an `Option<String>` field: `None` is
`null`. -/
def optStringToJson : Option String → Json
  | none => .null
  | some s => .str s

/-- Derived `Serialize` for `Access`: fields in declaration order. -/
def Access.toJson (a : Access) : Json :=
  .obj [("id", .num a.id), ("access_name", .str a.access_name)]

/-- Derived `Serialize` for `UserAccess` (`models.rs` 96–102): the identity
field is serialized under its declared name `permission_id`. -/
def UserAccess.toJson (u : UserAccess) : Json :=
  .obj [("permission_id", .num u.permission_id), ("access_id", .num u.access_id),
    ("user_id", .num u.user_id), ("permission_level", optStringToJson u.permission_level)]

/-- The body of a wire response. -/
inductive ResponseBody where
  | jsonBody (j : Json)
  | textBody (s : String)
  | emptyBody

/-- The slice of a `rouille::Response` observable at this layer: status code
and body. -/
structure Response where
  status : Nat
  body : ResponseBody

/-- Embeds `rouille::Response::json`: status 200 with the serialized JSON value. -/
def Response.jsonOf (j : Json) : Response := ⟨200, .jsonBody j⟩

/-- Embeds `rouille::Response::text`: status 200 with a plain-text body. -/
def Response.text (s : String) : Response := ⟨200, .textBody s⟩

/-- Embeds `rouille::Response::empty_204`: status 204 with an empty body. -/
def Response.empty_204 : Response := ⟨204, .emptyBody⟩

/-- Embeds `AccessResponse` (`models.rs` lines 80–83). -/
inductive AccessResponse where
  | OneAccess (a : Access)
  | NoResponse

/-- Embeds `AccessResponse::to_rouille` (`models.rs` lines 85–92). -/
def AccessResponse.to_rouille : AccessResponse → Response
  | .OneAccess a => Response.jsonOf a.toJson
  | .NoResponse => Response.empty_204

/-- Embeds `UserAccessResponse` (`models.rs` lines 193–198). `UserList` lives in
`crate::users::models`, which is not under `src/`; only its serialized JSON
value is observable at this layer, so the variant carries that value. -/
inductive UserAccessResponse where
  | ManyUsers (usersJson : Json)
  | AccessState (state : Bool)
  | OneUserAccess (u : UserAccess)
  | NoResponse

/-- Embeds `UserAccessResponse::to_rouille` (`models.rs` lines 200–208). -/
def UserAccessResponse.to_rouille : UserAccessResponse → Response
  | .ManyUsers usersJson => Response.jsonOf usersJson
  | .AccessState state => Response.text (if state then "true" else "false")
  | .OneUserAccess u => Response.jsonOf u.toJson
  | .NoResponse => Response.empty_204

/-- Embeds `request.data().ok_or(WebdevError::new(WebdevErrorKind::Format))` as it
appears in each body-consuming route. -/
def requestBody (r : Request) : Except WebdevError BodyData :=
  match r.body with
  | none => .error (WebdevError.new .Format)
  | some b => .ok b

/-- Modelled from the spec: the `From<serde_json::Error> for WebdevError`
conversion applied by the `?` on `serde_json::from_reader` lives in the
`errors` module, which is not under `src/`; §4.2/§7 state that malformed
JSON in a present body is a `Format` failure. -/
def serdeError (_msg : String) : WebdevError := WebdevError.new .Format

/-- Embeds `serde_json::from_reader::<_, NewAccess>` followed by `?`. -/
def readNewAccess : BodyData → Except WebdevError NewAccess
  | .malformed => .error (serdeError "syntax error")
  | .json j => (deserializeNewAccess j).mapError serdeError

/-- Embeds `serde_json::from_reader::<_, PartialAccess>` followed by `?`. -/
def readPartialAccess : BodyData → Except WebdevError PartialAccess
  | .malformed => .error (serdeError "syntax error")
  | .json j => (deserializePartialAccess j).mapError serdeError

/-- Embeds `serde_json::from_reader::<_, NewUserAccess>` followed by `?`. -/
def readNewUserAccess : BodyData → Except WebdevError NewUserAccess
  | .malformed => .error (serdeError "syntax error")
  | .json j => (deserializeNewUserAccess j).mapError serdeError

/-- Embeds `serde_json::from_reader::<_, PartialUserAccess>` followed by `?`. -/
def readPartialUserAccess : BodyData → Except WebdevError PartialUserAccess
  | .malformed => .error (serdeError "syntax error")
  | .json j => (deserializePartialUserAccess j).mapError serdeError

/-- Embeds `AccessRequest::from_rouille` (`models.rs` lines 45–77): the `router!`
rules in source order. An `{id: i64}` segment that fails to parse makes the
rule a non-match; since no later rule shares that method and arity, the
fall-through reaches the catch-all `NotFound` branch. -/
def AccessRequest.from_rouille (r : Request) : Except WebdevError AccessRequest :=
  if r.method = "GET" then
    match r.pathSegments with
    | [s] =>
      match parseI64 s with
      | some id => .ok (.GetAccess id)
      | none => .error (WebdevError.new .NotFound)
    | _ => .error (WebdevError.new .NotFound)
  else if r.method = "POST" then
    match r.pathSegments with
    | [] => ((requestBody r).bind readNewAccess).map .CreateAccess
    | [s] =>
      match parseI64 s with
      | some id => ((requestBody r).bind readPartialAccess).map (.UpdateAccess id)
      | none => .error (WebdevError.new .NotFound)
    | _ => .error (WebdevError.new .NotFound)
  else if r.method = "DELETE" then
    match r.pathSegments with
    | [s] =>
      match parseI64 s with
      | some id => .ok (.DeleteAccess id)
      | none => .error (WebdevError.new .NotFound)
    | _ => .error (WebdevError.new .NotFound)
  else
    .error (WebdevError.new .NotFound)

/-- One iteration of the query loop in `UserAccessRequest::from_rouille`
(`models.rs` lines 147–154): a recognized key replaces the corresponding
predicate with the parsed one, an unrecognized key is a `Format` error. -/
def searchStep (acc : SearchUserAccess) (p : String × String) :
    Except WebdevError SearchUserAccess :=
  if p.1 = "access_id" then
    (Search.from_query p.2).map fun r => { acc with access_id := r }
  else if p.1 = "user_id" then
    (Search.from_query p.2).map fun r => { acc with user_id := r }
  else if p.1 = "permission_level" then
    (NullableSearch.from_query p.2).map fun r => { acc with permission_level := r }
  else
    .error (WebdevError.new .Format)

/-- The query loop of the search route, folded over the decoded pairs in
order; the `?` aborts on the first error. -/
def searchLoop : List (String × String) → SearchUserAccess →
    Except WebdevError SearchUserAccess
  | [], acc => .ok acc
  | p :: rest, acc => (searchStep acc p).bind (searchLoop rest)

/-- Embeds `UserAccessRequest::from_rouille` (`models.rs` lines 135–190): the
`router!` rules in source order, with the three predicates initialized to
`NoSearch` before the query loop runs. -/
def UserAccessRequest.from_rouille (r : Request) : Except WebdevError UserAccessRequest :=
  if r.method = "GET" then
    match r.pathSegments with
    | [] =>
      (searchLoop r.queryPairs ⟨.NoSearch, .NoSearch, .NoSearch⟩).map .SearchAccess
    | [s1, s2] =>
      match parseI64 s1, parseI64 s2 with
      | some user_id, some access_id => .ok (.CheckAccess user_id access_id)
      | _, _ => .error (WebdevError.new .NotFound)
    | _ => .error (WebdevError.new .NotFound)
  else if r.method = "POST" then
    match r.pathSegments with
    | [] => ((requestBody r).bind readNewUserAccess).map .CreateAccess
    | [s] =>
      match parseI64 s with
      | some id => ((requestBody r).bind readPartialUserAccess).map (.UpdateAccess id)
      | none => .error (WebdevError.new .NotFound)
    | _ => .error (WebdevError.new .NotFound)
  else if r.method = "DELETE" then
    match r.pathSegments with
    | [s] =>
      match parseI64 s with
      | some id => .ok (.DeleteAccess id)
      | none => .error (WebdevError.new .NotFound)
    | _ => .error (WebdevError.new .NotFound)
  else
    .error (WebdevError.new .NotFound)

/-- Whether an `Except` result is a success. -/
def exceptOk {ε α : Type} : Except ε α → Bool
  | .ok _ => true
  | .error _ => false

/-- One query pair is recognized and its value parses in the predicate DSL. -/
def queryPairParses (p : String × String) : Bool :=
  if p.1 = "access_id" then exceptOk (Search.from_query p.2)
  else if p.1 = "user_id" then exceptOk (Search.from_query p.2)
  else if p.1 = "permission_level" then exceptOk (NullableSearch.from_query p.2)
  else false

lemma Search.from_query_error {q : String} {e : WebdevError}
    (h : Search.from_query q = .error e) : e = WebdevError.new .Format := by
  unfold Search.from_query at h
  cases hp : parseI64 q <;> rw [hp] at h <;> simp_all

lemma Search.from_query_ne_NoSearch {q : String} {r : Search Int}
    (h : Search.from_query q = .ok r) : r ≠ .NoSearch := by
  unfold Search.from_query at h
  cases hp : parseI64 q <;> rw [hp] at h <;> simp at h
  subst h
  simp

lemma NullableSearch.from_query_no_error (q : String) {e : WebdevError} :
    NullableSearch.from_query q ≠ .error e := by
  unfold NullableSearch.from_query
  split <;> simp

lemma NullableSearch.from_query_never_NoSearch {q : String} {r : NullableSearch String}
    (h : NullableSearch.from_query q = .ok r) : r ≠ .NoSearch := by
  unfold NullableSearch.from_query at h
  split at h <;> simp at h <;> subst h <;> simp

lemma searchStep_error_kind {acc : SearchUserAccess} {p : String × String}
    {e : WebdevError} (h : searchStep acc p = .error e) : e.kind = .Format := by
  unfold searchStep at h
  split_ifs at h
  · cases hq : Search.from_query p.2 <;> rw [hq] at h <;> simp [Except.map] at h
    rw [← h, Search.from_query_error hq]
    rfl
  · cases hq : Search.from_query p.2 <;> rw [hq] at h <;> simp [Except.map] at h
    rw [← h, Search.from_query_error hq]
    rfl
  · cases hq : NullableSearch.from_query p.2 <;> rw [hq] at h <;>
      simp [Except.map] at h
    exact absurd hq (NullableSearch.from_query_no_error p.2)
  · injection h with h'
    rw [← h']
    rfl

lemma searchStep_error_indep {acc acc' : SearchUserAccess} {p : String × String}
    {e : WebdevError} (h : searchStep acc p = .error e) :
    searchStep acc' p = .error e := by
  obtain ⟨k, v⟩ := p
  by_cases h1 : k = "access_id"
  · cases hq : Search.from_query v <;>
      simp [searchStep, h1, hq, Except.map] at h ⊢
    exact h
  · by_cases h2 : k = "user_id"
    · cases hq : Search.from_query v <;>
        simp [searchStep, h1, h2, hq, Except.map] at h ⊢
      exact h
    · by_cases h3 : k = "permission_level"
      · cases hq : NullableSearch.from_query v <;>
          simp [searchStep, h1, h2, h3, hq, Except.map] at h ⊢
        exact h
      · simpa [searchStep, h1, h2, h3] using h

lemma searchStep_unrecognized {acc : SearchUserAccess} {k v : String}
    (h1 : k ≠ "access_id") (h2 : k ≠ "user_id") (h3 : k ≠ "permission_level") :
    searchStep acc (k, v) = .error (WebdevError.new .Format) := by
  unfold searchStep
  simp [h1, h2, h3]

lemma searchStep_ok_of_parses {p : String × String}
    (h : queryPairParses p = true) (acc : SearchUserAccess) :
    ∃ acc', searchStep acc p = .ok acc' := by
  obtain ⟨k, v⟩ := p
  by_cases h1 : k = "access_id"
  · cases hq : Search.from_query v with
    | ok r =>
      exact ⟨{ acc with access_id := r }, by simp [searchStep, h1, hq, Except.map]⟩
    | error e' => simp [queryPairParses, h1, hq, exceptOk] at h
  · by_cases h2 : k = "user_id"
    · cases hq : Search.from_query v with
      | ok r =>
        exact ⟨{ acc with user_id := r }, by simp [searchStep, h1, h2, hq, Except.map]⟩
      | error e' => simp [queryPairParses, h1, h2, hq, exceptOk] at h
    · by_cases h3 : k = "permission_level"
      · cases hq : NullableSearch.from_query v with
        | ok r =>
          exact ⟨{ acc with permission_level := r },
            by simp [searchStep, h1, h2, h3, hq, Except.map]⟩
        | error e' => simp [queryPairParses, h1, h2, h3, hq, exceptOk] at h
      · simp [queryPairParses, h1, h2, h3] at h

lemma searchLoop_error_kind : ∀ {qs : List (String × String)}
    {acc : SearchUserAccess} {e : WebdevError},
    searchLoop qs acc = .error e → e.kind = .Format := by
  intro qs
  induction qs with
  | nil => intro acc e h; simp [searchLoop] at h
  | cons p rest ih =>
    intro acc e h
    unfold searchLoop at h
    cases hs : searchStep acc p <;> rw [hs] at h <;> simp [Except.bind] at h
    · rw [← h]; exact searchStep_error_kind hs
    · exact ih h

lemma searchLoop_error_of_step_error : ∀ {qs : List (String × String)}
    {p : String × String}, p ∈ qs →
    (∀ a : SearchUserAccess, ∃ e', searchStep a p = .error e') →
    ∀ acc : SearchUserAccess, ∃ e, searchLoop qs acc = .error e := by
  intro qs
  induction qs with
  | nil => intro p hp; exact absurd hp (List.not_mem_nil p)
  | cons q rest ih =>
    intro p hp hstep acc
    rcases List.mem_cons.mp hp with hq | hrest
    · obtain ⟨e', he'⟩ := hstep acc
      rw [hq] at he'
      exact ⟨e', by simp [searchLoop, he', Except.bind]⟩
    · cases hs : searchStep acc q with
      | error e => exact ⟨e, by simp [searchLoop, hs, Except.bind]⟩
      | ok a' =>
        obtain ⟨e, he⟩ := ih hrest hstep a'
        exact ⟨e, by simp [searchLoop, hs, Except.bind, he]⟩

lemma searchLoop_ok_of_all_parse : ∀ (qs : List (String × String)),
    (∀ p ∈ qs, queryPairParses p = true) →
    ∀ acc : SearchUserAccess, ∃ s, searchLoop qs acc = .ok s := by
  intro qs
  induction qs with
  | nil => intro _ acc; exact ⟨acc, rfl⟩
  | cons p rest ih =>
    intro hall acc
    obtain ⟨a', ha'⟩ := searchStep_ok_of_parses (hall p (List.mem_cons_self p rest)) acc
    obtain ⟨s, hs⟩ := ih (fun q hq => hall q (List.mem_cons_of_mem p hq)) a'
    exact ⟨s, by simp [searchLoop, ha', Except.bind, hs]⟩

lemma searchLoop_append : ∀ (qs1 qs2 : List (String × String))
    (acc : SearchUserAccess),
    searchLoop (qs1 ++ qs2) acc = (searchLoop qs1 acc).bind (searchLoop qs2) := by
  intro qs1
  induction qs1 with
  | nil => intro qs2 acc; simp [searchLoop, Except.bind]
  | cons p rest ih =>
    intro qs2 acc
    cases hs : searchStep acc p <;>
      simp [searchLoop, hs, Except.bind, ih]

lemma searchStep_preserves_access_id {acc acc' : SearchUserAccess}
    {p : String × String} (hk : p.1 ≠ "access_id")
    (h : searchStep acc p = .ok acc') : acc'.access_id = acc.access_id := by
  obtain ⟨k, v⟩ := p
  have hk' : k ≠ "access_id" := hk
  by_cases h2 : k = "user_id"
  · cases hq : Search.from_query v <;>
      simp [searchStep, hk', h2, hq, Except.map] at h
    rw [← h]
  · by_cases h3 : k = "permission_level"
    · cases hq : NullableSearch.from_query v <;>
        simp [searchStep, hk', h2, h3, hq, Except.map] at h
      rw [← h]
    · simp [searchStep, hk', h2, h3] at h

lemma searchStep_preserves_user_id {acc acc' : SearchUserAccess}
    {p : String × String} (hk : p.1 ≠ "user_id")
    (h : searchStep acc p = .ok acc') : acc'.user_id = acc.user_id := by
  obtain ⟨k, v⟩ := p
  have hk' : k ≠ "user_id" := hk
  by_cases h1 : k = "access_id"
  · cases hq : Search.from_query v <;>
      simp [searchStep, h1, hq, Except.map] at h
    rw [← h]
  · by_cases h3 : k = "permission_level"
    · cases hq : NullableSearch.from_query v <;>
        simp [searchStep, h1, hk', h3, hq, Except.map] at h
      rw [← h]
    · simp [searchStep, h1, hk', h3] at h

lemma searchStep_preserves_permission_level {acc acc' : SearchUserAccess}
    {p : String × String} (hk : p.1 ≠ "permission_level")
    (h : searchStep acc p = .ok acc') :
    acc'.permission_level = acc.permission_level := by
  obtain ⟨k, v⟩ := p
  have hk' : k ≠ "permission_level" := hk
  by_cases h1 : k = "access_id"
  · cases hq : Search.from_query v <;>
      simp [searchStep, h1, hq, Except.map] at h
    rw [← h]
  · by_cases h2 : k = "user_id"
    · cases hq : Search.from_query v <;>
        simp [searchStep, h1, h2, hq, Except.map] at h
      rw [← h]
    · simp [searchStep, h1, h2, hk'] at h

lemma searchLoop_preserves_access_id : ∀ {qs : List (String × String)}
    {acc s : SearchUserAccess}, "access_id" ∉ qs.map Prod.fst →
    searchLoop qs acc = .ok s → s.access_id = acc.access_id := by
  intro qs
  induction qs with
  | nil => intro acc s _ h; simp [searchLoop] at h; rw [h]
  | cons p rest ih =>
    intro acc s hk h
    unfold searchLoop at h
    cases hs : searchStep acc p <;> rw [hs] at h <;> simp [Except.bind] at h
    have hp1 : p.1 ≠ "access_id" := fun hc => hk (by simp [← hc])
    have hrest : "access_id" ∉ rest.map Prod.fst := fun hc => hk (by simp [hc])
    rw [ih hrest h, searchStep_preserves_access_id hp1 hs]

lemma searchLoop_preserves_user_id : ∀ {qs : List (String × String)}
    {acc s : SearchUserAccess}, "user_id" ∉ qs.map Prod.fst →
    searchLoop qs acc = .ok s → s.user_id = acc.user_id := by
  intro qs
  induction qs with
  | nil => intro acc s _ h; simp [searchLoop] at h; rw [h]
  | cons p rest ih =>
    intro acc s hk h
    unfold searchLoop at h
    cases hs : searchStep acc p <;> rw [hs] at h <;> simp [Except.bind] at h
    have hp1 : p.1 ≠ "user_id" := fun hc => hk (by simp [← hc])
    have hrest : "user_id" ∉ rest.map Prod.fst := fun hc => hk (by simp [hc])
    rw [ih hrest h, searchStep_preserves_user_id hp1 hs]

lemma searchLoop_preserves_permission_level : ∀ {qs : List (String × String)}
    {acc s : SearchUserAccess}, "permission_level" ∉ qs.map Prod.fst →
    searchLoop qs acc = .ok s → s.permission_level = acc.permission_level := by
  intro qs
  induction qs with
  | nil => intro acc s _ h; simp [searchLoop] at h; rw [h]
  | cons p rest ih =>
    intro acc s hk h
    unfold searchLoop at h
    cases hs : searchStep acc p <;> rw [hs] at h <;> simp [Except.bind] at h
    have hp1 : p.1 ≠ "permission_level" := fun hc => hk (by simp [← hc])
    have hrest : "permission_level" ∉ rest.map Prod.fst := fun hc => hk (by simp [hc])
    rw [ih hrest h, searchStep_preserves_permission_level hp1 hs]

lemma from_rouille_search (b : Option BodyData) (qs : List (String × String)) :
    UserAccessRequest.from_rouille ⟨"GET", [], qs, b⟩ =
      (searchLoop qs ⟨.NoSearch, .NoSearch, .NoSearch⟩).map .SearchAccess := by
  rfl

lemma from_rouille_search_ok {b : Option BodyData} {qs : List (String × String)}
    {s : SearchUserAccess}
    (h : UserAccessRequest.from_rouille ⟨"GET", [], qs, b⟩ = .ok (.SearchAccess s)) :
    searchLoop qs ⟨.NoSearch, .NoSearch, .NoSearch⟩ = .ok s := by
  rw [from_rouille_search] at h
  cases hl : searchLoop qs ⟨.NoSearch, .NoSearch, .NoSearch⟩ <;> rw [hl] at h <;>
    simp [Except.map] at h
  rw [h]

lemma searchLoop_last_access_id {qs1 qs2 : List (String × String)} {v : String}
    {rv : Search Int} {acc s : SearchUserAccess}
    (hv : Search.from_query v = .ok rv) (hk : "access_id" ∉ qs2.map Prod.fst)
    (h : searchLoop (qs1 ++ ("access_id", v) :: qs2) acc = .ok s) :
    s.access_id = rv := by
  rw [searchLoop_append] at h
  cases h1 : searchLoop qs1 acc with
  | error e => rw [h1] at h; simp [Except.bind] at h
  | ok a1 =>
    rw [h1] at h
    simp only [Except.bind] at h
    have hstep : searchStep a1 ("access_id", v) = .ok { a1 with access_id := rv } := by
      simp [searchStep, hv, Except.map]
    rw [searchLoop, hstep] at h
    simp only [Except.bind] at h
    rw [searchLoop_preserves_access_id hk h]

lemma searchLoop_last_user_id {qs1 qs2 : List (String × String)} {v : String}
    {rv : Search Int} {acc s : SearchUserAccess}
    (hv : Search.from_query v = .ok rv) (hk : "user_id" ∉ qs2.map Prod.fst)
    (h : searchLoop (qs1 ++ ("user_id", v) :: qs2) acc = .ok s) :
    s.user_id = rv := by
  rw [searchLoop_append] at h
  cases h1 : searchLoop qs1 acc with
  | error e => rw [h1] at h; simp [Except.bind] at h
  | ok a1 =>
    rw [h1] at h
    simp only [Except.bind] at h
    have hstep : searchStep a1 ("user_id", v) = .ok { a1 with user_id := rv } := by
      simp [searchStep, hv, Except.map]
    rw [searchLoop, hstep] at h
    simp only [Except.bind] at h
    rw [searchLoop_preserves_user_id hk h]

lemma searchLoop_last_permission_level {qs1 qs2 : List (String × String)}
    {v : String} {rv : NullableSearch String} {acc s : SearchUserAccess}
    (hv : NullableSearch.from_query v = .ok rv)
    (hk : "permission_level" ∉ qs2.map Prod.fst)
    (h : searchLoop (qs1 ++ ("permission_level", v) :: qs2) acc = .ok s) :
    s.permission_level = rv := by
  rw [searchLoop_append] at h
  cases h1 : searchLoop qs1 acc with
  | error e => rw [h1] at h; simp [Except.bind] at h
  | ok a1 =>
    rw [h1] at h
    simp only [Except.bind] at h
    have hstep : searchStep a1 ("permission_level", v) =
        .ok { a1 with permission_level := rv } := by
      simp [searchStep, hv, Except.map]
    rw [searchLoop, hstep] at h
    simp only [Except.bind] at h
    rw [searchLoop_preserves_permission_level hk h]

/-- C1: for every `GET /` search request on the UserAccessGrant resource whose
query string contains a key other than `access_id`, `user_id` or
`permission_level`, classification fails with a `Format` error, regardless of
whether the other keys present are recognized and valid. -/
theorem spec_C1_unrecognized_query_key_is_format_error
    (b : Option BodyData) (qs : List (String × String)) (k v : String)
    (hmem : (k, v) ∈ qs) (h1 : k ≠ "access_id") (h2 : k ≠ "user_id")
    (h3 : k ≠ "permission_level") :
    ∃ e, UserAccessRequest.from_rouille ⟨"GET", [], qs, b⟩ = .error e ∧
      e.kind = .Format := by
  have hstep : ∀ a : SearchUserAccess, ∃ e', searchStep a (k, v) = .error e' :=
    fun a => ⟨WebdevError.new .Format, searchStep_unrecognized h1 h2 h3⟩
  obtain ⟨e, he⟩ := searchLoop_error_of_step_error hmem hstep
    ⟨.NoSearch, .NoSearch, .NoSearch⟩
  exact ⟨e, by rw [from_rouille_search, he]; rfl, searchLoop_error_kind he⟩

/-- Witness for C1 at `GET /?access_id=5&bogus=1`. -/
theorem spec_C1_witness :
    ∃ e, UserAccessRequest.from_rouille
        ⟨"GET", [], [("access_id", "5"), ("bogus", "1")], none⟩ = .error e ∧
      e.kind = .Format :=
  spec_C1_unrecognized_query_key_is_format_error none
    [("access_id", "5"), ("bogus", "1")] "bogus" "1" (by decide) (by decide)
    (by decide) (by decide)

/-- C6: a recognized query parameter that is absent leaves the corresponding
predicate in the no-filter state: `GET /` with an empty query yields
`SearchAccess` with all three predicates `NoSearch`; a predicate whose key
does not occur in the query string stays `NoSearch`; and the predicate
parsers never produce `NoSearch` from a present value. -/
theorem spec_C6_absent_parameter_is_no_filter :
    (∀ b, UserAccessRequest.from_rouille ⟨"GET", [], [], b⟩ =
      .ok (.SearchAccess ⟨.NoSearch, .NoSearch, .NoSearch⟩))
    ∧ (∀ b qs s, "access_id" ∉ qs.map Prod.fst →
        UserAccessRequest.from_rouille ⟨"GET", [], qs, b⟩ = .ok (.SearchAccess s) →
        s.access_id = .NoSearch)
    ∧ (∀ b qs s, "user_id" ∉ qs.map Prod.fst →
        UserAccessRequest.from_rouille ⟨"GET", [], qs, b⟩ = .ok (.SearchAccess s) →
        s.user_id = .NoSearch)
    ∧ (∀ b qs s, "permission_level" ∉ qs.map Prod.fst →
        UserAccessRequest.from_rouille ⟨"GET", [], qs, b⟩ = .ok (.SearchAccess s) →
        s.permission_level = .NoSearch)
    ∧ (∀ q r, Search.from_query q = .ok r → r ≠ .NoSearch)
    ∧ (∀ q r, NullableSearch.from_query q = .ok r → r ≠ .NoSearch) := by
  refine ⟨fun b => rfl, ?_, ?_, ?_,
    fun q r h => Search.from_query_ne_NoSearch h,
    fun q r h => NullableSearch.from_query_never_NoSearch h⟩
  · intro b qs s hk h
    exact searchLoop_preserves_access_id hk (from_rouille_search_ok h)
  · intro b qs s hk h
    exact searchLoop_preserves_user_id hk (from_rouille_search_ok h)
  · intro b qs s hk h
    exact searchLoop_preserves_permission_level hk (from_rouille_search_ok h)

/-- Witness for C6: empty query yields the all-`NoSearch` predicate set; with
only `user_id=7` present, `access_id` and `permission_level` stay `NoSearch`;
parsing the present value `7` did not produce `NoSearch`. -/
theorem spec_C6_witness :
    UserAccessRequest.from_rouille ⟨"GET", [], [], none⟩ =
      .ok (.SearchAccess ⟨.NoSearch, .NoSearch, .NoSearch⟩)
    ∧ (⟨.NoSearch, .Exact 7, .NoSearch⟩ : SearchUserAccess).access_id = .NoSearch
    ∧ (⟨.NoSearch, .Exact 7, .NoSearch⟩ : SearchUserAccess).permission_level = .NoSearch
    ∧ (.Exact 7 : Search Int) ≠ .NoSearch := by
  refine ⟨spec_C6_absent_parameter_is_no_filter.1 none, ?_, ?_, ?_⟩
  · exact spec_C6_absent_parameter_is_no_filter.2.1 none [("user_id", "7")]
      ⟨.NoSearch, .Exact 7, .NoSearch⟩ (by decide) rfl
  · exact spec_C6_absent_parameter_is_no_filter.2.2.2.1 none [("user_id", "7")]
      ⟨.NoSearch, .Exact 7, .NoSearch⟩ (by decide) rfl
  · exact spec_C6_absent_parameter_is_no_filter.2.2.2.2.1 "7" (.Exact 7) rfl

/-- C7: if any recognized query parameter of the `GET /` search request has a
value the predicate DSL fails to parse, classification of the whole search
fails with a `Format` error and no partial predicate set is produced. -/
theorem spec_C7_dsl_failure_aborts_search_with_format
    (b : Option BodyData) (qs : List (String × String)) (k v : String)
    (hmem : (k, v) ∈ qs)
    (hfail : ((k = "access_id" ∨ k = "user_id") ∧
        ∃ m, Search.from_query v = .error m)
      ∨ (k = "permission_level" ∧ ∃ m, NullableSearch.from_query v = .error m)) :
    ∃ e, UserAccessRequest.from_rouille ⟨"GET", [], qs, b⟩ = .error e ∧
      e.kind = .Format := by
  have hstep : ∀ a : SearchUserAccess, ∃ e', searchStep a (k, v) = .error e' := by
    intro a
    rcases hfail with ⟨hk, m, hm⟩ | ⟨hk, m, hm⟩
    · rcases hk with hk | hk <;> subst hk <;>
        exact ⟨m, by simp [searchStep, hm, Except.map]⟩
    · subst hk
      exact ⟨m, by simp [searchStep, hm, Except.map]⟩
  obtain ⟨e, he⟩ := searchLoop_error_of_step_error hmem hstep
    ⟨.NoSearch, .NoSearch, .NoSearch⟩
  exact ⟨e, by rw [from_rouille_search, he]; rfl, searchLoop_error_kind he⟩

/-- Witness for C7 at `GET /?user_id=5&access_id=abc`: the valid `user_id`
does not rescue the malformed `access_id`. -/
theorem spec_C7_witness :
    ∃ e, UserAccessRequest.from_rouille
        ⟨"GET", [], [("user_id", "5"), ("access_id", "abc")], none⟩ = .error e ∧
      e.kind = .Format :=
  spec_C7_dsl_failure_aborts_search_with_format none
    [("user_id", "5"), ("access_id", "abc")] "access_id" "abc" (by decide)
    (Or.inl ⟨Or.inl rfl, WebdevError.new .Format, rfl⟩)

/-- C10: duplicate recognized query keys are not rejected — when every pair in
the query string is recognized and its value parses, classification succeeds —
and the predicate produced for a column is the one parsed from the last
occurrence of its key. -/
theorem spec_C10_duplicate_keys_last_occurrence_wins :
    (∀ b qs, (∀ p ∈ qs, queryPairParses p = true) →
      ∃ s, UserAccessRequest.from_rouille ⟨"GET", [], qs, b⟩ =
        .ok (.SearchAccess s))
    ∧ (∀ b qs1 qs2 v rv s, Search.from_query v = .ok rv →
        "access_id" ∉ qs2.map Prod.fst →
        UserAccessRequest.from_rouille
          ⟨"GET", [], qs1 ++ ("access_id", v) :: qs2, b⟩ = .ok (.SearchAccess s) →
        s.access_id = rv)
    ∧ (∀ b qs1 qs2 v rv s, Search.from_query v = .ok rv →
        "user_id" ∉ qs2.map Prod.fst →
        UserAccessRequest.from_rouille
          ⟨"GET", [], qs1 ++ ("user_id", v) :: qs2, b⟩ = .ok (.SearchAccess s) →
        s.user_id = rv)
    ∧ (∀ b qs1 qs2 v rv s, NullableSearch.from_query v = .ok rv →
        "permission_level" ∉ qs2.map Prod.fst →
        UserAccessRequest.from_rouille
          ⟨"GET", [], qs1 ++ ("permission_level", v) :: qs2, b⟩ =
          .ok (.SearchAccess s) →
        s.permission_level = rv) := by
  refine ⟨?_, ?_, ?_, ?_⟩
  · intro b qs hall
    obtain ⟨s, hs⟩ := searchLoop_ok_of_all_parse qs hall
      ⟨.NoSearch, .NoSearch, .NoSearch⟩
    exact ⟨s, by rw [from_rouille_search, hs]; rfl⟩
  · intro b qs1 qs2 v rv s hv hk h
    exact searchLoop_last_access_id hv hk (from_rouille_search_ok h)
  · intro b qs1 qs2 v rv s hv hk h
    exact searchLoop_last_user_id hv hk (from_rouille_search_ok h)
  · intro b qs1 qs2 v rv s hv hk h
    exact searchLoop_last_permission_level hv hk (from_rouille_search_ok h)

/-- Witness for C10 at `GET /?access_id=1&access_id=2`: the duplicate key is
accepted and the predicate comes from the second occurrence. -/
theorem spec_C10_witness :
    (∃ s, UserAccessRequest.from_rouille
        ⟨"GET", [], [("access_id", "1"), ("access_id", "2")], none⟩ =
        .ok (.SearchAccess s))
    ∧ (⟨.Exact 2, .NoSearch, .NoSearch⟩ : SearchUserAccess).access_id = .Exact 2 := by
  constructor
  · exact spec_C10_duplicate_keys_last_occurrence_wins.1 none
      [("access_id", "1"), ("access_id", "2")] (by decide)
  · exact spec_C10_duplicate_keys_last_occurrence_wins.2.1 none
      [("access_id", "1")] [] "2" (.Exact 2) ⟨.Exact 2, .NoSearch, .NoSearch⟩
      rfl (by decide) rfl

/-- C3: the AccessLevel classifier follows exactly its routing table:
`GET /{id}` yields `GetAccess`, `POST /` with a parsed body yields
`CreateAccess`, `POST /{id}` yields `UpdateAccess`, `DELETE /{id}` yields
`DeleteAccess`, and any request matching none of those rules fails with
`NotFound`. -/
theorem spec_C3_access_routing_table :
    (∀ q b s n, parseI64 s = some n →
      AccessRequest.from_rouille ⟨"GET", [s], q, b⟩ = .ok (.GetAccess n))
    ∧ (∀ q j na, deserializeNewAccess j = .ok na →
      AccessRequest.from_rouille ⟨"POST", [], q, some (.json j)⟩ =
        .ok (.CreateAccess na))
    ∧ (∀ q j s n pa, parseI64 s = some n → deserializePartialAccess j = .ok pa →
      AccessRequest.from_rouille ⟨"POST", [s], q, some (.json j)⟩ =
        .ok (.UpdateAccess n pa))
    ∧ (∀ q b s n, parseI64 s = some n →
      AccessRequest.from_rouille ⟨"DELETE", [s], q, b⟩ = .ok (.DeleteAccess n))
    ∧ (∀ r : Request,
        (∀ s n, ¬(r.method = "GET" ∧ r.pathSegments = [s] ∧ parseI64 s = some n)) →
        ¬(r.method = "POST" ∧ r.pathSegments = []) →
        (∀ s n, ¬(r.method = "POST" ∧ r.pathSegments = [s] ∧ parseI64 s = some n)) →
        (∀ s n, ¬(r.method = "DELETE" ∧ r.pathSegments = [s] ∧ parseI64 s = some n)) →
        AccessRequest.from_rouille r = .error (WebdevError.new .NotFound)) := by
  refine ⟨?_, ?_, ?_, ?_, ?_⟩
  · intro q b s n h
    simp [AccessRequest.from_rouille, h]
  · intro q j na h
    simp [AccessRequest.from_rouille, requestBody, readNewAccess, h,
      Except.bind, Except.map, Except.mapError]
  · intro q j s n pa hs h
    simp [AccessRequest.from_rouille, requestBody, readPartialAccess, hs, h,
      Except.bind, Except.map, Except.mapError]
  · intro q b s n h
    simp [AccessRequest.from_rouille, h]
  · intro r hg hp0 hp1 hd
    obtain ⟨m, segs, q, b⟩ := r
    unfold AccessRequest.from_rouille
    split_ifs with h1 h2 h3
    · cases segs with
      | nil => rfl
      | cons s tail =>
        cases tail with
        | nil =>
          cases hp : parseI64 s with
          | none => simp [hp]
          | some n => exact absurd ⟨h1, rfl, hp⟩ (hg s n)
        | cons s2 tail2 => rfl
    · cases segs with
      | nil => exact absurd ⟨h2, rfl⟩ hp0
      | cons s tail =>
        cases tail with
        | nil =>
          cases hp : parseI64 s with
          | none => simp [hp]
          | some n => exact absurd ⟨h2, rfl, hp⟩ (hp1 s n)
        | cons s2 tail2 => rfl
    · cases segs with
      | nil => rfl
      | cons s tail =>
        cases tail with
        | nil =>
          cases hp : parseI64 s with
          | none => simp [hp]
          | some n => exact absurd ⟨h3, rfl, hp⟩ (hd s n)
        | cons s2 tail2 => rfl
    · rfl

/-- Witness for C3 at one concrete request per routing rule plus the
catch-all (`PUT /5`). -/
theorem spec_C3_witness :
    AccessRequest.from_rouille ⟨"GET", ["5"], [], none⟩ = .ok (.GetAccess 5)
    ∧ AccessRequest.from_rouille
        ⟨"POST", [], [], some (.json (.obj [("access_name", .str "admin")]))⟩ =
        .ok (.CreateAccess ⟨"admin"⟩)
    ∧ AccessRequest.from_rouille
        ⟨"POST", ["5"], [], some (.json (.obj [("access_name", .str "x")]))⟩ =
        .ok (.UpdateAccess 5 ⟨"x"⟩)
    ∧ AccessRequest.from_rouille ⟨"DELETE", ["42"], [], none⟩ =
        .ok (.DeleteAccess 42)
    ∧ AccessRequest.from_rouille ⟨"PUT", ["5"], [], none⟩ =
        .error (WebdevError.new .NotFound) := by
  refine ⟨spec_C3_access_routing_table.1 [] none "5" 5 (by decide),
    spec_C3_access_routing_table.2.1 []
      (.obj [("access_name", .str "admin")]) ⟨"admin"⟩ rfl,
    spec_C3_access_routing_table.2.2.1 []
      (.obj [("access_name", .str "x")]) "5" 5 ⟨"x"⟩ (by decide) rfl,
    spec_C3_access_routing_table.2.2.2.1 [] none "42" 42 (by decide),
    spec_C3_access_routing_table.2.2.2.2 ⟨"PUT", ["5"], [], none⟩ ?_ ?_ ?_ ?_⟩
  · intro s n h
    exact absurd h.1 (by decide)
  · intro h
    exact absurd h.1 (by decide)
  · intro s n h
    exact absurd h.1 (by decide)
  · intro s n h
    exact absurd h.1 (by decide)

/-- C4: a boolean check outcome encodes to status 200 with the literal
plain-text token `true` or `false`, never a JSON body. -/
theorem spec_C4_boolean_check_plain_text (state : Bool) :
    (UserAccessResponse.AccessState state).to_rouille =
      ⟨200, .textBody (if state then "true" else "false")⟩
    ∧ ∀ j, (UserAccessResponse.AccessState state).to_rouille.body ≠ .jsonBody j := by
  cases state <;> exact ⟨rfl, fun j h => nomatch h⟩

/-- C5: an id-shaped path segment that fails `i64` parsing makes the route
rule a non-match; the classifier falls through the remaining rules of that
method and arity and ends at the catch-all with `NotFound`, not `Format`. -/
theorem spec_C5_unparseable_id_segment_not_found :
    (∀ q b s, parseI64 s = none →
      AccessRequest.from_rouille ⟨"GET", [s], q, b⟩ =
        .error (WebdevError.new .NotFound))
    ∧ (∀ q b s, parseI64 s = none →
      AccessRequest.from_rouille ⟨"POST", [s], q, b⟩ =
        .error (WebdevError.new .NotFound))
    ∧ (∀ q b s, parseI64 s = none →
      AccessRequest.from_rouille ⟨"DELETE", [s], q, b⟩ =
        .error (WebdevError.new .NotFound))
    ∧ (∀ q b s1 s2, parseI64 s1 = none ∨ parseI64 s2 = none →
      UserAccessRequest.from_rouille ⟨"GET", [s1, s2], q, b⟩ =
        .error (WebdevError.new .NotFound))
    ∧ (∀ q b s, parseI64 s = none →
      UserAccessRequest.from_rouille ⟨"POST", [s], q, b⟩ =
        .error (WebdevError.new .NotFound))
    ∧ (∀ q b s, parseI64 s = none →
      UserAccessRequest.from_rouille ⟨"DELETE", [s], q, b⟩ =
        .error (WebdevError.new .NotFound)) := by
  refine ⟨?_, ?_, ?_, ?_, ?_, ?_⟩
  · intro q b s h
    simp [AccessRequest.from_rouille, h]
  · intro q b s h
    simp [AccessRequest.from_rouille, h]
  · intro q b s h
    simp [AccessRequest.from_rouille, h]
  · intro q b s1 s2 h
    rcases h with h | h <;>
      cases hp1 : parseI64 s1 <;> cases hp2 : parseI64 s2 <;>
      simp_all [UserAccessRequest.from_rouille]
  · intro q b s h
    simp [UserAccessRequest.from_rouille, h]
  · intro q b s h
    simp [UserAccessRequest.from_rouille, h]

/-- Witness for C5 at `GET /abc`, `POST /abc`, `DELETE /abc` and
`GET /7/abc`. -/
theorem spec_C5_witness :
    AccessRequest.from_rouille ⟨"GET", ["abc"], [], none⟩ =
      .error (WebdevError.new .NotFound)
    ∧ AccessRequest.from_rouille ⟨"POST", ["abc"], [], none⟩ =
      .error (WebdevError.new .NotFound)
    ∧ UserAccessRequest.from_rouille ⟨"GET", ["7", "abc"], [], none⟩ =
      .error (WebdevError.new .NotFound)
    ∧ UserAccessRequest.from_rouille ⟨"DELETE", ["abc"], [], none⟩ =
      .error (WebdevError.new .NotFound) :=
  ⟨spec_C5_unparseable_id_segment_not_found.1 [] none "abc" (by decide),
    spec_C5_unparseable_id_segment_not_found.2.1 [] none "abc" (by decide),
    spec_C5_unparseable_id_segment_not_found.2.2.2.1 [] none "7" "abc"
      (Or.inr (by decide)),
    spec_C5_unparseable_id_segment_not_found.2.2.2.2.2 [] none "abc" (by decide)⟩

/-- The field-name list of a JSON object (empty for non-objects). -/
def Json.fieldNames : Json → List String
  | .obj fields => fields.map Prod.fst
  | _ => []

/-- The JSON value carried by a response body (`null` when the body is not
JSON). -/
def ResponseBody.jsonValue : ResponseBody → Json
  | .jsonBody j => j
  | _ => .null

/-- C2 counterexample: encoding the grant with `permission_id = 1`,
`access_id = 2`, `user_id = 3` and no permission level produces a JSON
object whose field names are `permission_id`, `access_id`, `user_id`,
`permission_level` — the identity field is not named `grant_id`. -/
theorem spec_C2_counterexample :
    (UserAccessResponse.OneUserAccess ⟨1, 2, 3, none⟩).to_rouille.body.jsonValue.fieldNames =
      ["permission_id", "access_id", "user_id", "permission_level"]
    ∧ "grant_id" ∉
      (UserAccessResponse.OneUserAccess ⟨1, 2, 3, none⟩).to_rouille.body.jsonValue.fieldNames :=
  ⟨rfl, by decide⟩

/-- C2 amended: the JSON wire encoding of a single grant has status 200 and
names its identity field `permission_id` — not `grant_id` — alongside
`access_id`, `user_id` and `permission_level`, in declaration order. -/
theorem spec_C2_amended_wire_fields (u : UserAccess) :
    (UserAccessResponse.OneUserAccess u).to_rouille =
      ⟨200, .jsonBody (.obj [("permission_id", .num u.permission_id),
        ("access_id", .num u.access_id), ("user_id", .num u.user_id),
        ("permission_level", optStringToJson u.permission_level)])⟩ :=
  rfl

/-- C8: for every POST route that requires a body — create and update on
both resources — a missing body is a `Format` failure, and so is a present
body that is not valid JSON for the expected payload type, whether the bytes
fail to parse as JSON at all or the parsed value is rejected by the payload
type. -/
theorem spec_C8_body_failures_are_format :
    (∀ q, AccessRequest.from_rouille ⟨"POST", [], q, none⟩ =
      .error (WebdevError.new .Format))
    ∧ (∀ q, AccessRequest.from_rouille ⟨"POST", [], q, some .malformed⟩ =
      .error (WebdevError.new .Format))
    ∧ (∀ q j m, deserializeNewAccess j = .error m →
      AccessRequest.from_rouille ⟨"POST", [], q, some (.json j)⟩ =
        .error (WebdevError.new .Format))
    ∧ (∀ q s n, parseI64 s = some n →
      AccessRequest.from_rouille ⟨"POST", [s], q, none⟩ =
        .error (WebdevError.new .Format))
    ∧ (∀ q s n, parseI64 s = some n →
      AccessRequest.from_rouille ⟨"POST", [s], q, some .malformed⟩ =
        .error (WebdevError.new .Format))
    ∧ (∀ q s n j m, parseI64 s = some n → deserializePartialAccess j = .error m →
      AccessRequest.from_rouille ⟨"POST", [s], q, some (.json j)⟩ =
        .error (WebdevError.new .Format))
    ∧ (∀ q, UserAccessRequest.from_rouille ⟨"POST", [], q, none⟩ =
      .error (WebdevError.new .Format))
    ∧ (∀ q, UserAccessRequest.from_rouille ⟨"POST", [], q, some .malformed⟩ =
      .error (WebdevError.new .Format))
    ∧ (∀ q j m, deserializeNewUserAccess j = .error m →
      UserAccessRequest.from_rouille ⟨"POST", [], q, some (.json j)⟩ =
        .error (WebdevError.new .Format))
    ∧ (∀ q s n, parseI64 s = some n →
      UserAccessRequest.from_rouille ⟨"POST", [s], q, none⟩ =
        .error (WebdevError.new .Format))
    ∧ (∀ q s n, parseI64 s = some n →
      UserAccessRequest.from_rouille ⟨"POST", [s], q, some .malformed⟩ =
        .error (WebdevError.new .Format))
    ∧ (∀ q s n j m, parseI64 s = some n →
      deserializePartialUserAccess j = .error m →
      UserAccessRequest.from_rouille ⟨"POST", [s], q, some (.json j)⟩ =
        .error (WebdevError.new .Format)) := by
  refine ⟨fun q => rfl, fun q => rfl, ?_, ?_, ?_, ?_,
    fun q => rfl, fun q => rfl, ?_, ?_, ?_, ?_⟩
  · intro q j m h
    simp [AccessRequest.from_rouille, requestBody, readNewAccess, h,
      serdeError, Except.bind, Except.map, Except.mapError]
  · intro q s n h
    simp [AccessRequest.from_rouille, requestBody, h,
      Except.bind, Except.map]
  · intro q s n h
    simp [AccessRequest.from_rouille, requestBody, readPartialAccess, h,
      serdeError, Except.bind, Except.map, Except.mapError]
  · intro q s n j m hs h
    simp [AccessRequest.from_rouille, requestBody, readPartialAccess, hs, h,
      serdeError, Except.bind, Except.map, Except.mapError]
  · intro q j m h
    simp [UserAccessRequest.from_rouille, requestBody, readNewUserAccess, h,
      serdeError, Except.bind, Except.map, Except.mapError]
  · intro q s n h
    simp [UserAccessRequest.from_rouille, requestBody, h,
      Except.bind, Except.map]
  · intro q s n h
    simp [UserAccessRequest.from_rouille, requestBody, readPartialUserAccess, h,
      serdeError, Except.bind, Except.map, Except.mapError]
  · intro q s n j m hs h
    simp [UserAccessRequest.from_rouille, requestBody, readPartialUserAccess,
      hs, h, serdeError, Except.bind, Except.map, Except.mapError]

/-- Witness for C8: a bodiless `POST /`, a non-JSON body, and a JSON body of
the wrong shape (`null`) all fail with `Format`, on both resources. -/
theorem spec_C8_witness :
    AccessRequest.from_rouille ⟨"POST", [], [], none⟩ =
      .error (WebdevError.new .Format)
    ∧ AccessRequest.from_rouille ⟨"POST", [], [], some .malformed⟩ =
      .error (WebdevError.new .Format)
    ∧ AccessRequest.from_rouille ⟨"POST", [], [], some (.json .null)⟩ =
      .error (WebdevError.new .Format)
    ∧ UserAccessRequest.from_rouille ⟨"POST", ["5"], [], none⟩ =
      .error (WebdevError.new .Format)
    ∧ UserAccessRequest.from_rouille ⟨"POST", ["5"], [], some (.json .null)⟩ =
      .error (WebdevError.new .Format) :=
  ⟨spec_C8_body_failures_are_format.1 [],
    spec_C8_body_failures_are_format.2.1 [],
    spec_C8_body_failures_are_format.2.2.1 [] .null
      "invalid type: expected an object" rfl,
    spec_C8_body_failures_are_format.2.2.2.2.2.2.2.2.2.1 [] "5" 5 (by decide),
    spec_C8_body_failures_are_format.2.2.2.2.2.2.2.2.2.2.2 [] "5" 5 .null
      "invalid type: expected an object" (by decide) rfl⟩

lemma getOptOptString_ok_ne {v : Json} {x : Option (Option String)}
    (h : getOptOptString v = .ok x) : x ≠ some none := by
  cases v <;> simp [getOptOptString] at h <;> simp [← h]

lemma fieldsToPartialUserAccess_missing_access_id :
    ∀ (fields : List (String × Json)) (u : Option Int)
      (p : Option (Option (Option String))),
    "access_id" ∉ fields.map Prod.fst →
    ∃ m, fieldsToPartialUserAccess fields none u p = .error m := by
  intro fields
  induction fields with
  | nil => intro u p _; exact ⟨"missing field access_id", rfl⟩
  | cons kv rest ih =>
    intro u p hk
    obtain ⟨k, v⟩ := kv
    have hk1 : k ≠ "access_id" := fun hc => hk (by simp [hc])
    have hkrest : "access_id" ∉ rest.map Prod.fst := fun hc => hk (by simp [hc])
    by_cases h2 : k = "user_id"
    · subst h2
      cases u with
      | some x =>
        exact ⟨"duplicate field user_id", by simp [fieldsToPartialUserAccess]⟩
      | none =>
        cases hg : getI64 v with
        | error m =>
          exact ⟨m, by simp [fieldsToPartialUserAccess, hg, Except.bind]⟩
        | ok n =>
          obtain ⟨m, hm⟩ := ih (some n) p hkrest
          exact ⟨m, by simp [fieldsToPartialUserAccess, hg, Except.bind, hm]⟩
    · by_cases h3 : k = "permission_level"
      · subst h3
        cases p with
        | some x =>
          exact ⟨"duplicate field permission_level",
            by simp [fieldsToPartialUserAccess]⟩
        | none =>
          cases hg : getOptOptString v with
          | error m =>
            exact ⟨m, by simp [fieldsToPartialUserAccess, hg, Except.bind]⟩
          | ok x =>
            obtain ⟨m, hm⟩ := ih u (some x) hkrest
            exact ⟨m, by simp [fieldsToPartialUserAccess, hg, Except.bind, hm]⟩
      · obtain ⟨m, hm⟩ := ih u p hkrest
        exact ⟨m, by simp [fieldsToPartialUserAccess, hk1, h2, h3, hm]⟩

lemma fieldsToPartialUserAccess_missing_user_id :
    ∀ (fields : List (String × Json)) (a : Option Int)
      (p : Option (Option (Option String))),
    "user_id" ∉ fields.map Prod.fst →
    ∃ m, fieldsToPartialUserAccess fields a none p = .error m := by
  intro fields
  induction fields with
  | nil =>
    intro a p _
    cases a with
    | none => exact ⟨"missing field access_id", rfl⟩
    | some x => exact ⟨"missing field user_id", rfl⟩
  | cons kv rest ih =>
    intro a p hk
    obtain ⟨k, v⟩ := kv
    have hk2 : k ≠ "user_id" := fun hc => hk (by simp [hc])
    have hkrest : "user_id" ∉ rest.map Prod.fst := fun hc => hk (by simp [hc])
    by_cases h1 : k = "access_id"
    · subst h1
      cases a with
      | some x =>
        exact ⟨"duplicate field access_id", by simp [fieldsToPartialUserAccess]⟩
      | none =>
        cases hg : getI64 v with
        | error m =>
          exact ⟨m, by simp [fieldsToPartialUserAccess, hg, Except.bind]⟩
        | ok n =>
          obtain ⟨m, hm⟩ := ih (some n) p hkrest
          exact ⟨m, by simp [fieldsToPartialUserAccess, hg, Except.bind, hm]⟩
    · by_cases h3 : k = "permission_level"
      · subst h3
        cases p with
        | some x =>
          exact ⟨"duplicate field permission_level",
            by simp [fieldsToPartialUserAccess]⟩
        | none =>
          cases hg : getOptOptString v with
          | error m =>
            exact ⟨m, by simp [fieldsToPartialUserAccess, hg, Except.bind]⟩
          | ok x =>
            obtain ⟨m, hm⟩ := ih a (some x) hkrest
            exact ⟨m, by simp [fieldsToPartialUserAccess, hg, Except.bind, hm]⟩
      · obtain ⟨m, hm⟩ := ih a p hkrest
        exact ⟨m, by simp [fieldsToPartialUserAccess, h1, hk2, h3, hm]⟩

lemma fieldsToPartialUserAccess_pl_ne_some_none :
    ∀ (fields : List (String × Json)) (a u : Option Int)
      (p : Option (Option (Option String))) (res : PartialUserAccess),
    fieldsToPartialUserAccess fields a u p = .ok res →
    (∀ x, p = some x → x ≠ some none) →
    res.permission_level ≠ some none := by
  intro fields
  induction fields with
  | nil =>
    intro a u p res h hp
    cases a with
    | none => simp [fieldsToPartialUserAccess] at h
    | some a' =>
      cases u with
      | none => simp [fieldsToPartialUserAccess] at h
      | some u' =>
        simp [fieldsToPartialUserAccess] at h
        rw [← h]
        cases hx : p with
        | none => simp
        | some x => simpa using hp x hx
  | cons kv rest ih =>
    intro a u p res h hp
    obtain ⟨k, v⟩ := kv
    by_cases h1 : k = "access_id"
    · subst h1
      cases a with
      | some x => simp [fieldsToPartialUserAccess] at h
      | none =>
        cases hg : getI64 v with
        | error m => simp [fieldsToPartialUserAccess, hg, Except.bind] at h
        | ok n =>
          simp only [fieldsToPartialUserAccess, hg, Except.bind] at h
          exact ih (some n) u p res (by simpa using h) hp
    · by_cases h2 : k = "user_id"
      · subst h2
        cases u with
        | some x => simp [fieldsToPartialUserAccess, h1] at h
        | none =>
          cases hg : getI64 v with
          | error m => simp [fieldsToPartialUserAccess, h1, hg, Except.bind] at h
          | ok n =>
            simp only [fieldsToPartialUserAccess, h1, hg, Except.bind] at h
            exact ih a (some n) p res (by simpa [h1] using h) hp
      · by_cases h3 : k = "permission_level"
        · subst h3
          cases p with
          | some x => simp [fieldsToPartialUserAccess, h1, h2] at h
          | none =>
            cases hg : getOptOptString v with
            | error m =>
              simp [fieldsToPartialUserAccess, h1, h2, hg, Except.bind] at h
            | ok x =>
              simp only [fieldsToPartialUserAccess, h1, h2, hg, Except.bind] at h
              refine ih a u (some x) res (by simpa [h1, h2] using h) ?_
              intro y hy
              rw [← Option.some_inj.mp hy]
              exact getOptOptString_ok_ne hg
        · simp only [fieldsToPartialUserAccess, h1, h2, h3, if_false] at h
          exact ih a u p res (by simpa [h1, h2, h3] using h) hp

/-- C9 counterexample: with `access_id` and `user_id` present, a body whose
`permission_level` is explicit JSON `null` deserializes to exactly the same
`PartialUserAccess` as a body where the field is absent — both give the
outer `none` of the double option — so classification does not distinguish
present-and-null from absent (it would have to map `null` to `some none`). -/
theorem spec_C9_counterexample :
    deserializePartialUserAccess (.obj [("access_id", .num 1),
      ("user_id", .num 2), ("permission_level", .null)]) =
      deserializePartialUserAccess (.obj [("access_id", .num 1),
        ("user_id", .num 2)])
    ∧ deserializePartialUserAccess (.obj [("access_id", .num 1),
      ("user_id", .num 2), ("permission_level", .null)]) = .ok ⟨1, 2, none⟩
    ∧ UserAccessRequest.from_rouille ⟨"POST", ["5"], [],
        some (.json (.obj [("access_id", .num 1), ("user_id", .num 2),
          ("permission_level", .null)]))⟩ = .ok (.UpdateAccess 5 ⟨1, 2, none⟩)
    ∧ UserAccessRequest.from_rouille ⟨"POST", ["5"], [],
        some (.json (.obj [("access_id", .num 1), ("user_id", .num 2)]))⟩ =
        .ok (.UpdateAccess 5 ⟨1, 2, none⟩) :=
  ⟨rfl, rfl, rfl, rfl⟩

/-- C9 amended: classification of `POST /{id}` on the UserAccessGrant
resource succeeds only if the JSON body contains both `access_id` and
`user_id` (omitting either fails deserialization, hence classification fails
with `Format`); `permission_level` may be absent, explicit JSON null, or a
string, but absent and explicit null are not distinguished — both yield the
outer `none` of the double option, a string yields `some (some s)`, and the
middle state `some none` is never produced by deserialization. -/
theorem spec_C9_amended_double_option :
    (∀ fields, "access_id" ∉ fields.map Prod.fst →
      ∃ m, deserializePartialUserAccess (.obj fields) = .error m)
    ∧ (∀ fields, "user_id" ∉ fields.map Prod.fst →
      ∃ m, deserializePartialUserAccess (.obj fields) = .error m)
    ∧ (∀ q s n j m, parseI64 s = some n →
      deserializePartialUserAccess j = .error m →
      UserAccessRequest.from_rouille ⟨"POST", [s], q, some (.json j)⟩ =
        .error (WebdevError.new .Format))
    ∧ (∀ a u, i64Min ≤ a → a ≤ i64Max → i64Min ≤ u → u ≤ i64Max →
      deserializePartialUserAccess (.obj [("access_id", .num a),
        ("user_id", .num u)]) = .ok ⟨a, u, none⟩)
    ∧ (∀ a u, i64Min ≤ a → a ≤ i64Max → i64Min ≤ u → u ≤ i64Max →
      deserializePartialUserAccess (.obj [("access_id", .num a),
        ("user_id", .num u), ("permission_level", .null)]) = .ok ⟨a, u, none⟩)
    ∧ (∀ a u s, i64Min ≤ a → a ≤ i64Max → i64Min ≤ u → u ≤ i64Max →
      deserializePartialUserAccess (.obj [("access_id", .num a),
        ("user_id", .num u), ("permission_level", .str s)]) =
        .ok ⟨a, u, some (some s)⟩)
    ∧ (∀ j pu, deserializePartialUserAccess j = .ok pu →
      pu.permission_level ≠ some none) := by
  refine ⟨?_, ?_, ?_, ?_, ?_, ?_, ?_⟩
  · intro fields hk
    exact fieldsToPartialUserAccess_missing_access_id fields none none hk
  · intro fields hk
    exact fieldsToPartialUserAccess_missing_user_id fields none none hk
  · intro q s n j m hs h
    simp [UserAccessRequest.from_rouille, requestBody, readPartialUserAccess,
      hs, h, serdeError, Except.bind, Except.map, Except.mapError]
  · intro a u ha1 ha2 hu1 hu2
    simp [deserializePartialUserAccess, fieldsToPartialUserAccess, getI64,
      ha1, ha2, hu1, hu2, Except.bind]
  · intro a u ha1 ha2 hu1 hu2
    simp [deserializePartialUserAccess, fieldsToPartialUserAccess, getI64,
      getOptOptString, ha1, ha2, hu1, hu2, Except.bind]
  · intro a u s ha1 ha2 hu1 hu2
    simp [deserializePartialUserAccess, fieldsToPartialUserAccess, getI64,
      getOptOptString, ha1, ha2, hu1, hu2, Except.bind]
  · intro j pu h
    cases j with
    | obj fields =>
      exact fieldsToPartialUserAccess_pl_ne_some_none fields none none none pu h
        (fun x hx => nomatch hx)
    | null => simp [deserializePartialUserAccess] at h
    | bool b => simp [deserializePartialUserAccess] at h
    | num n => simp [deserializePartialUserAccess] at h
    | str s => simp [deserializePartialUserAccess] at h
    | arr elems => simp [deserializePartialUserAccess] at h

/-- Witness for C9 (amended): a body missing `access_id` fails; a string
`permission_level` produces the inner-some state; a successful result never
carries `some none`. -/
theorem spec_C9_witness :
    (∃ m, deserializePartialUserAccess (.obj [("user_id", .num 2)]) = .error m)
    ∧ deserializePartialUserAccess (.obj [("access_id", .num 1),
        ("user_id", .num 2), ("permission_level", .str "admin")]) =
      .ok ⟨1, 2, some (some "admin")⟩
    ∧ (⟨1, 2, none⟩ : PartialUserAccess).permission_level ≠ some none := by
  refine ⟨spec_C9_amended_double_option.1 [("user_id", .num 2)] (by decide),
    spec_C9_amended_double_option.2.2.2.2.2.1 1 2 "admin" (by decide)
      (by decide) (by decide) (by decide),
    spec_C9_amended_double_option.2.2.2.2.2.2
      (.obj [("access_id", .num 1), ("user_id", .num 2)]) ⟨1, 2, none⟩ rfl⟩

end Webdev
